import Mathlib

/-!
Shallow embedding of `gitlab/v4/objects/pipelines.py`.

The module binds GitLab CI pipeline resources (pipelines, jobs, bridges,
pipeline variables, pipeline schedules and schedule variables) to
manager/object pairs.  Managers build HTTP requests; objects hold the
attributes of one server-side record.  We embed an attribute bag as an
association list from attribute names to string values, and an HTTP request
as a record of method, path and extra parameters.  The generic base classes
(`RESTObject`, `RESTManager` and the capability mixins) live outside this
module; their behaviour is modelled from the specification where noted.
-/

namespace Pipelines

/-- Attribute bags and keyword-argument dictionaries: finite maps from
attribute name to value, embedded as association lists. -/
abbrev Attrs := List (String × String)

/-- HTTP method of an issued request. -/
inductive Method
  | GET
  | POST
  | PUT
  | PATCH
  | DELETE
  deriving DecidableEq, Repr

/-- An HTTP request as handed to the shared transport: a method, a resolved
path, and the additional query/body parameters sent with it. -/
structure HttpRequest where
  method : Method
  path : String
  params : Attrs
  deriving DecidableEq, Repr

/-- A server response to a request: either a successful (2xx) response
carrying a deserialized payload, or a failure with a non-2xx status. -/
inductive HttpResponse
  | success (payload : Attrs)
  | failure (status : Nat)
  deriving DecidableEq, Repr

/-- Local (client-side) errors raised before any network call. -/
inductive LocalError
  | missingAttributes (names : List String)
  deriving DecidableEq, Repr

/-- Error kinds from `gitlab.exceptions` used by this module. -/
inductive GitlabError
  | authentication
  | pipelineCancel
  | pipelineRetry
  | ownership
  | pipelinePlay
  deriving DecidableEq, Repr

/-- `RequiredOptional` from `gitlab.base`: the declared required and optional
attribute names for a create or update call. -/
structure RequiredOptional where
  required : List String := []
  optional : List String := []
  deriving DecidableEq, Repr

/-- The required attribute names that a data mapping fails to supply. -/
def RequiredOptional.missing (ro : RequiredOptional) (data : Attrs) : List String :=
  ro.required.filter (fun k => (data.lookup k).isNone)

/-- Capabilities contributed by the generic manager/object mixins. -/
inductive Capability
  | list
  | get
  | create
  | update
  | delete
  | refresh
  | save
  deriving DecidableEq, Repr

/-- Modelled from the spec: `exc.on_http_error (E)` (from `gitlab.exceptions`,
not part of this module) wraps the error raised for a non-2xx response of the
decorated call into the error kind `E`; a successful response passes its
payload through unchanged. -/
def on_http_error (e : GitlabError) (resp : HttpResponse) : Except GitlabError Attrs :=
  match resp with
  | HttpResponse.success payload => Except.ok payload
  | HttpResponse.failure _ => Except.error e

/-- Modelled from the spec: `RESTObject._update_attrs` (from `gitlab.base`,
not part of this module) overwrites the object's local attributes with the
fields of the given response payload. -/
def RESTObject.update_attrs (_old new : Attrs) : Attrs := new

/-- Modelled from the spec: `RESTObject.get_id` (from `gitlab.base`, not part
of this module) reads the configured identifier attribute from the object's
attribute bag. -/
def RESTObject.get_id (id_attr : String) (a : Attrs) : Option String :=
  a.lookup id_attr

/-- Modelled from the spec: `CreateMixin.create` (from `gitlab.mixins`, not
part of this module) validates the required attribute set before any network
call — a data mapping missing a required field fails with a local validation
error and no request is issued — and otherwise issues a POST to the given
path carrying the data and any extra keyword parameters. -/
def CreateMixin.create (ro : RequiredOptional) (path : String) (data kwargs : Attrs) :
    Except LocalError HttpRequest :=
  match ro.missing data with
  | [] => Except.ok { method := Method.POST, path := path, params := data ++ kwargs }
  | ms => Except.error (LocalError.missingAttributes ms)

/-- Modelled from the spec: `UpdateMixin.update` (from `gitlab.mixins`, not
part of this module) validates the required attribute set of `_update_attrs`
before any network call and otherwise issues a PUT to the manager path
followed by the object id, carrying the data and extra keyword parameters. -/
def UpdateMixin.update (ro : RequiredOptional) (managerPath : String) (id : String)
    (data kwargs : Attrs) : Except LocalError HttpRequest :=
  match ro.missing data with
  | [] => Except.ok
      { method := Method.PUT, path := managerPath ++ "/" ++ id, params := data ++ kwargs }
  | ms => Except.error (LocalError.missingAttributes ms)

/-- Modelled from the spec: `DeleteMixin`/`ObjectDeleteMixin` delete (from
`gitlab.mixins`, not part of this module) issues a DELETE to the manager path
followed by the object id. -/
def ObjectDeleteMixin.delete (managerPath : String) (id : String) (kwargs : Attrs) :
    HttpRequest :=
  { method := Method.DELETE, path := managerPath ++ "/" ++ id, params := kwargs }

/-- Modelled from the spec: `ListMixin.list` (from `gitlab.mixins`, not part
of this module) issues a GET to the manager path with the filters as query
parameters. -/
def ListMixin.list (managerPath : String) (filters : Attrs) : HttpRequest :=
  { method := Method.GET, path := managerPath, params := filters }

/-- Modelled from the spec: `GetMixin.get` (from `gitlab.mixins`, not part of
this module) issues a GET to the manager path followed by the object id. -/
def GetMixin.get (managerPath : String) (id : String) (kwargs : Attrs) : HttpRequest :=
  { method := Method.GET, path := managerPath ++ "/" ++ id, params := kwargs }

/-- Modelled from the spec: `RefreshMixin.refresh` (from `gitlab.mixins`, not
part of this module) re-fetches the object with a GET to the manager path
followed by the object id and replaces its attributes. -/
def RefreshMixin.refresh (managerPath : String) (id : String) (kwargs : Attrs) :
    HttpRequest :=
  { method := Method.GET, path := managerPath ++ "/" ++ id, params := kwargs }

/-- Modelled from the spec: capabilities contributed by the capability mixins
of `gitlab.mixins` (not part of this module); `RetrieveMixin` is list plus
get-by-id, `CRUDMixin` is the full set. -/
def ListMixin.capabilities : List Capability := [Capability.list]

/-- Modelled from the spec: `RetrieveMixin` composes list and get-by-id. -/
def RetrieveMixin.capabilities : List Capability := [Capability.list, Capability.get]

/-- Modelled from the spec: `CreateMixin` contributes create. -/
def CreateMixin.capabilities : List Capability := [Capability.create]

/-- Modelled from the spec: `UpdateMixin` contributes update. -/
def UpdateMixin.capabilities : List Capability := [Capability.update]

/-- Modelled from the spec: `DeleteMixin` contributes delete. -/
def DeleteMixin.capabilities : List Capability := [Capability.delete]

/-- Modelled from the spec: `CRUDMixin` composes the full CRUD set. -/
def CRUDMixin.capabilities : List Capability :=
  [Capability.list, Capability.get, Capability.create, Capability.update, Capability.delete]

/-- Modelled from the spec: `RefreshMixin` contributes refresh. -/
def RefreshMixin.capabilities : List Capability := [Capability.refresh]

/-- Modelled from the spec: `ObjectDeleteMixin` contributes delete. -/
def ObjectDeleteMixin.capabilities : List Capability := [Capability.delete]

/-- Modelled from the spec: `SaveMixin` contributes save (object update). -/
def SaveMixin.capabilities : List Capability := [Capability.save]

/-! ## `ProjectPipelineManager` and `ProjectPipeline` (pipelines.py 33-105) -/

/-- The manager's `_path` template `/projects/%(project_id)s/pipelines` with
the parent attribute `project_id` substituted. -/
def ProjectPipelineManager.path (project_id : Nat) : String :=
  "/projects/" ++ toString project_id ++ "/pipelines"

/-- `ProjectPipelineManager._list_filters` (pipelines.py 75-85). -/
def ProjectPipelineManager.list_filters : List String :=
  ["scope", "status", "ref", "sha", "yaml_errors", "name", "username", "order_by", "sort"]

/-- `ProjectPipelineManager._create_attrs = RequiredOptional(required=("ref",))`
(pipelines.py 86). -/
def ProjectPipelineManager.create_attrs : RequiredOptional :=
  { required := ["ref"] }

/-- `ProjectPipelineManager.create` (pipelines.py 88-105): takes the resolved
list path, drops its final character (`path = self.path[:-1]`, the comment in
the source says "drop the 's'"), and delegates to `CreateMixin.create` with
that path override. -/
def ProjectPipelineManager.create (project_id : Nat) (data kwargs : Attrs) :
    Except LocalError HttpRequest :=
  CreateMixin.create ProjectPipelineManager.create_attrs
    ((ProjectPipelineManager.path project_id).dropRight 1) data kwargs

/-- Mixins composed by `ProjectPipelineManager` (pipelines.py 71):
`RetrieveMixin, CreateMixin, DeleteMixin`. -/
def ProjectPipelineManager.capabilities : List Capability :=
  RetrieveMixin.capabilities ++ CreateMixin.capabilities ++ DeleteMixin.capabilities

/-- Mixins composed by `ProjectPipeline` (pipelines.py 33):
`RefreshMixin, ObjectDeleteMixin` — no `SaveMixin`. -/
def ProjectPipeline.capabilities : List Capability :=
  RefreshMixin.capabilities ++ ObjectDeleteMixin.capabilities

/-- `ProjectPipeline.cancel` (pipelines.py 42-53): builds
`"%s/%s/cancel" % (self.manager.path, self.get_id())` and calls
`self.manager.gitlab.http_post(path)`.  The source passes no keyword
arguments to `http_post`, so the issued request carries no extra
parameters even when the caller supplied some. -/
def ProjectPipeline.cancelRequest (managerPath : String) (id : String) (kwargs : Attrs) :
    HttpRequest :=
  { method := Method.POST, path := managerPath ++ "/" ++ id ++ "/cancel", params := [] }

/-- `ProjectPipeline.retry` (pipelines.py 57-68): builds
`"%s/%s/retry" % (self.manager.path, self.get_id())` and calls
`self.manager.gitlab.http_post(path)`, likewise without forwarding the
caller's keyword arguments. -/
def ProjectPipeline.retryRequest (managerPath : String) (id : String) (kwargs : Attrs) :
    HttpRequest :=
  { method := Method.POST, path := managerPath ++ "/" ++ id ++ "/retry", params := [] }

/-- Outcome of `ProjectPipeline.cancel` for a given server response: the
decorator `on_http_error(GitlabPipelineCancelError)` maps a non-2xx response
to that error kind; the method body ignores the response payload, so the
object's attribute bag is returned unchanged in either case. -/
def ProjectPipeline.cancelRun (a : Attrs) (resp : HttpResponse) :
    Except GitlabError Unit × Attrs :=
  match on_http_error GitlabError.pipelineCancel resp with
  | Except.ok _ => (Except.ok (), a)
  | Except.error e => (Except.error e, a)

/-- Outcome of `ProjectPipeline.retry` for a given server response, with the
decorator `on_http_error(GitlabPipelineRetryError)`. -/
def ProjectPipeline.retryRun (a : Attrs) (resp : HttpResponse) :
    Except GitlabError Unit × Attrs :=
  match on_http_error GitlabError.pipelineRetry resp with
  | Except.ok _ => (Except.ok (), a)
  | Except.error e => (Except.error e, a)

/-- The pipeline operations available through this module, with the request
each one issues (`none` when local validation fails before any request). -/
inductive PipelineOp
  | listOp (filters : Attrs)
  | getOp (id : String)
  | createOp (data kwargs : Attrs)
  | deleteOp (id : String)
  | refreshOp (id : String)
  | cancelOp (id : String) (kwargs : Attrs)
  | retryOp (id : String) (kwargs : Attrs)

/-- The request a pipeline operation issues for a given project, if any. -/
def PipelineOp.request (project_id : Nat) : PipelineOp → Option HttpRequest
  | PipelineOp.listOp filters =>
      some (ListMixin.list (ProjectPipelineManager.path project_id) filters)
  | PipelineOp.getOp id =>
      some (GetMixin.get (ProjectPipelineManager.path project_id) id [])
  | PipelineOp.createOp data kwargs =>
      (ProjectPipelineManager.create project_id data kwargs).toOption
  | PipelineOp.deleteOp id =>
      some (ObjectDeleteMixin.delete (ProjectPipelineManager.path project_id) id [])
  | PipelineOp.refreshOp id =>
      some (RefreshMixin.refresh (ProjectPipelineManager.path project_id) id [])
  | PipelineOp.cancelOp id kwargs =>
      some (ProjectPipeline.cancelRequest (ProjectPipelineManager.path project_id) id kwargs)
  | PipelineOp.retryOp id kwargs =>
      some (ProjectPipeline.retryRequest (ProjectPipelineManager.path project_id) id kwargs)

/-! ## Jobs, bridges and pipeline variables (pipelines.py 108-137) -/

/-- `ProjectPipelineJobManager._path` with parent attributes substituted. -/
def ProjectPipelineJobManager.path (project_id pipeline_id : Nat) : String :=
  "/projects/" ++ toString project_id ++ "/pipelines/" ++ toString pipeline_id ++ "/jobs"

/-- Mixins composed by `ProjectPipelineJobManager` (pipelines.py 112). -/
def ProjectPipelineJobManager.capabilities : List Capability :=
  ListMixin.capabilities

/-- `ProjectPipelineBridgeManager._path` with parent attributes substituted. -/
def ProjectPipelineBridgeManager.path (project_id pipeline_id : Nat) : String :=
  "/projects/" ++ toString project_id ++ "/pipelines/" ++ toString pipeline_id ++ "/bridges"

/-- Mixins composed by `ProjectPipelineBridgeManager` (pipelines.py 123). -/
def ProjectPipelineBridgeManager.capabilities : List Capability :=
  ListMixin.capabilities

/-- `ProjectPipelineVariable._id_attr = "key"` (pipelines.py 131). -/
def ProjectPipelineVariable.id_attr : String := "key"

/-- `ProjectPipelineVariableManager._path` with parent attributes substituted. -/
def ProjectPipelineVariableManager.path (project_id pipeline_id : Nat) : String :=
  "/projects/" ++ toString project_id ++ "/pipelines/" ++ toString pipeline_id ++ "/variables"

/-- Mixins composed by `ProjectPipelineVariableManager` (pipelines.py 134). -/
def ProjectPipelineVariableManager.capabilities : List Capability :=
  ListMixin.capabilities

/-! ## Schedule variables (pipelines.py 140-154) -/

/-- `ProjectPipelineScheduleVariable._id_attr = "key"` (pipelines.py 141). -/
def ProjectPipelineScheduleVariable.id_attr : String := "key"

/-- `ProjectPipelineScheduleVariableManager._path` with parent attributes
substituted. -/
def ProjectPipelineScheduleVariableManager.path (project_id pipeline_schedule_id : Nat) :
    String :=
  "/projects/" ++ toString project_id ++ "/pipeline_schedules/"
    ++ toString pipeline_schedule_id ++ "/variables"

/-- Mixins composed by `ProjectPipelineScheduleVariableManager`
(pipelines.py 144-146): `CreateMixin, UpdateMixin, DeleteMixin`. -/
def ProjectPipelineScheduleVariableManager.capabilities : List Capability :=
  CreateMixin.capabilities ++ UpdateMixin.capabilities ++ DeleteMixin.capabilities

/-- `_create_attrs = RequiredOptional(required=("key", "value"))`
(pipelines.py 153). -/
def ProjectPipelineScheduleVariableManager.create_attrs : RequiredOptional :=
  { required := ["key", "value"] }

/-- `_update_attrs = RequiredOptional(required=("key", "value"))`
(pipelines.py 154). -/
def ProjectPipelineScheduleVariableManager.update_attrs : RequiredOptional :=
  { required := ["key", "value"] }

/-- The update request of the schedule-variable manager: `UpdateMixin.update`
against this manager's path and update attribute set. -/
def ProjectPipelineScheduleVariableManager.update (project_id pipeline_schedule_id : Nat)
    (id : String) (data kwargs : Attrs) : Except LocalError HttpRequest :=
  UpdateMixin.update ProjectPipelineScheduleVariableManager.update_attrs
    (ProjectPipelineScheduleVariableManager.path project_id pipeline_schedule_id)
    id data kwargs

/-- Deleting a schedule-variable object (`ObjectDeleteMixin` on
`ProjectPipelineScheduleVariable`): the path segment for the object is its
identifier attribute, which this class declares to be `key`. -/
def ProjectPipelineScheduleVariable.deleteRequest (project_id pipeline_schedule_id : Nat)
    (a kwargs : Attrs) : Option HttpRequest :=
  (RESTObject.get_id ProjectPipelineScheduleVariable.id_attr a).map
    (fun id => ObjectDeleteMixin.delete
      (ProjectPipelineScheduleVariableManager.path project_id pipeline_schedule_id) id kwargs)

/-- Saving a schedule-variable object (`SaveMixin` on
`ProjectPipelineScheduleVariable`): delegates to the manager's update,
addressed by the object's identifier attribute `key`. -/
def ProjectPipelineScheduleVariable.saveRequest (project_id pipeline_schedule_id : Nat)
    (a kwargs : Attrs) : Option (Except LocalError HttpRequest) :=
  (RESTObject.get_id ProjectPipelineScheduleVariable.id_attr a).map
    (fun id => ProjectPipelineScheduleVariableManager.update project_id pipeline_schedule_id
      id a kwargs)

/-! ## Schedules (pipelines.py 157-204) -/

/-- `ProjectPipelineScheduleManager._path` with `project_id` substituted. -/
def ProjectPipelineScheduleManager.path (project_id : Nat) : String :=
  "/projects/" ++ toString project_id ++ "/pipeline_schedules"

/-- Mixins composed by `ProjectPipelineScheduleManager` (pipelines.py 195):
`CRUDMixin`. -/
def ProjectPipelineScheduleManager.capabilities : List Capability :=
  CRUDMixin.capabilities

/-- `_create_attrs` of the schedule manager (pipelines.py 199-201). -/
def ProjectPipelineScheduleManager.create_attrs : RequiredOptional :=
  { required := ["description", "ref", "cron"], optional := ["cron_timezone", "active"] }

/-- `_update_attrs` of the schedule manager (pipelines.py 202-204): only
optional fields, no required ones. -/
def ProjectPipelineScheduleManager.update_attrs : RequiredOptional :=
  { optional := ["description", "ref", "cron", "cron_timezone", "active"] }

/-- The schedule manager's create: `CreateMixin.create` against the
collection path and this manager's create attribute set. -/
def ProjectPipelineScheduleManager.create (project_id : Nat) (data kwargs : Attrs) :
    Except LocalError HttpRequest :=
  CreateMixin.create ProjectPipelineScheduleManager.create_attrs
    (ProjectPipelineScheduleManager.path project_id) data kwargs

/-- The schedule manager's update: `UpdateMixin.update` against this
manager's path and update attribute set. -/
def ProjectPipelineScheduleManager.update (project_id : Nat) (id : String)
    (data kwargs : Attrs) : Except LocalError HttpRequest :=
  UpdateMixin.update ProjectPipelineScheduleManager.update_attrs
    (ProjectPipelineScheduleManager.path project_id) id data kwargs

/-- `ProjectPipelineSchedule.take_ownership` (pipelines.py 162-174): builds
`"%s/%s/take_ownership" % (self.manager.path, self.get_id())` and calls
`http_post(path, **kwargs)`, forwarding the caller's keyword arguments. -/
def ProjectPipelineSchedule.take_ownership_request (managerPath : String) (id : String)
    (kwargs : Attrs) : HttpRequest :=
  { method := Method.POST, path := managerPath ++ "/" ++ id ++ "/take_ownership",
    params := kwargs }

/-- `ProjectPipelineSchedule.play` (pipelines.py 178-192): builds
`"%s/%s/play" % (self.manager.path, self.get_id())` and calls
`http_post(path, **kwargs)`, forwarding the caller's keyword arguments. -/
def ProjectPipelineSchedule.play_request (managerPath : String) (id : String)
    (kwargs : Attrs) : HttpRequest :=
  { method := Method.POST, path := managerPath ++ "/" ++ id ++ "/play", params := kwargs }

/-- Outcome of `take_ownership` for a given server response: on a 2xx
response the body runs `self._update_attrs(server_data)`; the decorator
`on_http_error(GitlabOwnershipError)` maps a non-2xx response to that error
kind, leaving the attributes untouched. -/
def ProjectPipelineSchedule.take_ownershipRun (a : Attrs) (resp : HttpResponse) :
    Except GitlabError Unit × Attrs :=
  match on_http_error GitlabError.ownership resp with
  | Except.ok server_data => (Except.ok (), RESTObject.update_attrs a server_data)
  | Except.error e => (Except.error e, a)

/-- Outcome of `play` for a given server response: on a 2xx response the body
runs `self._update_attrs(server_data)` and `return server_data`; the
decorator `on_http_error(GitlabPipelinePlayError)` maps a non-2xx response to
that error kind, leaving the attributes untouched. -/
def ProjectPipelineSchedule.playRun (a : Attrs) (resp : HttpResponse) :
    Except GitlabError Attrs × Attrs :=
  match on_http_error GitlabError.pipelinePlay resp with
  | Except.ok server_data => (Except.ok server_data, RESTObject.update_attrs a server_data)
  | Except.error e => (Except.error e, a)

/-! ## Theorems -/

/-- C1: every call to `ProjectPipelineManager.create` whose data mapping
lacks the key `ref` fails with a local validation error — the result is an
`Except.error`, so no `HttpRequest` is produced and no network call is
made. -/
theorem pipeline_create_missing_ref_fails_locally (project_id : Nat) (data kwargs : Attrs)
    (h : data.lookup "ref" = none) :
    ProjectPipelineManager.create project_id data kwargs =
      Except.error (LocalError.missingAttributes ["ref"]) := by
  simp [ProjectPipelineManager.create, CreateMixin.create, RequiredOptional.missing,
    ProjectPipelineManager.create_attrs, h]

/-- Witness for C1 at the concrete data mapping `{sha: deadbeef}`. -/
theorem pipeline_create_missing_ref_fails_locally_witness :
    (List.lookup "ref" ([("sha", "deadbeef")] : Attrs) = none) ∧
    ProjectPipelineManager.create 1 [("sha", "deadbeef")] [] =
      Except.error (LocalError.missingAttributes ["ref"]) :=
  ⟨rfl, pipeline_create_missing_ref_fails_locally 1 [("sha", "deadbeef")] [] rfl⟩

/-- C2: whenever `ProjectPipelineManager.create` issues a request, it is a
POST whose path is the manager's resolved list path with exactly its final
character removed. -/
theorem pipeline_create_path_drops_final_char (project_id : Nat) (data kwargs : Attrs)
    (req : HttpRequest)
    (h : ProjectPipelineManager.create project_id data kwargs = Except.ok req) :
    req.method = Method.POST ∧
    req.path = (ProjectPipelineManager.path project_id).dropRight 1 := by
  unfold ProjectPipelineManager.create CreateMixin.create at h
  cases h' : RequiredOptional.missing ProjectPipelineManager.create_attrs data with
  | nil => rw [h'] at h; cases h; exact ⟨rfl, rfl⟩
  | cons x xs => rw [h'] at h; cases h

/-- Witness for C2 at project 1: the list path is `/projects/1/pipelines`
and the issued create path is `/projects/1/pipeline`. -/
theorem pipeline_create_path_drops_final_char_witness :
    ProjectPipelineManager.path 1 = "/projects/1/pipelines" ∧
    ProjectPipelineManager.create 1 [("ref", "main")] [] = Except.ok
      { method := Method.POST, path := "/projects/1/pipeline",
        params := [("ref", "main")] } ∧
    (Method.POST = Method.POST ∧
     "/projects/1/pipeline" = (ProjectPipelineManager.path 1).dropRight 1) :=
  ⟨rfl, rfl, pipeline_create_path_drops_final_char 1 [("ref", "main")] []
    { method := Method.POST, path := "/projects/1/pipeline", params := [("ref", "main")] }
    rfl⟩

/-- C3 counterexample: the schedule-variable manager composes only
`CreateMixin, UpdateMixin, DeleteMixin` (pipelines.py 144-146), so it
exposes neither a list nor a get capability — no GET operation exists,
contrary to the claim. -/
theorem schedule_variable_manager_no_get :
    ¬ (Capability.get ∈ ProjectPipelineScheduleVariableManager.capabilities ∨
       Capability.list ∈ ProjectPipelineScheduleVariableManager.capabilities) := by
  decide

/-- C3 amended: schedule variables support create (POST), update (PUT) and
delete (DELETE) at
`/projects/{project_id}/pipeline_schedules/{schedule_id}/variables[/{key}]`,
but the manager exposes no list/get (GET) capability. -/
theorem schedule_variable_manager_caps :
    ProjectPipelineScheduleVariableManager.capabilities =
      [Capability.create, Capability.update, Capability.delete] ∧
    Capability.list ∉ ProjectPipelineScheduleVariableManager.capabilities ∧
    Capability.get ∉ ProjectPipelineScheduleVariableManager.capabilities ∧
    ProjectPipelineScheduleVariableManager.path 1 2 =
      "/projects/1/pipeline_schedules/2/variables" :=
  ⟨rfl, by decide, by decide, rfl⟩

/-- C4: `cancel` and `retry` drop the caller's extra keyword parameters —
with `sudo=user1` supplied, the issued POST carries no parameters, although
the methods' own docstrings promise the extra options are sent to the
server; `take_ownership` and `play` do forward them. -/
theorem cancel_retry_drop_extra_kwargs :
    (ProjectPipeline.cancelRequest "/projects/1/pipelines" "42"
      [("sudo", "user1")]).params = [] ∧
    (ProjectPipeline.retryRequest "/projects/1/pipelines" "42"
      [("sudo", "user1")]).params = [] ∧
    (ProjectPipelineSchedule.take_ownership_request "/projects/1/pipeline_schedules" "7"
      [("sudo", "user1")]).params = [("sudo", "user1")] ∧
    (ProjectPipelineSchedule.play_request "/projects/1/pipeline_schedules" "7"
      [("sudo", "user1")]).params = [("sudo", "user1")] :=
  ⟨rfl, rfl, rfl, rfl⟩

/-- C5: `cancel` issues a POST to `{manager path}/{id}/cancel` and `retry` a
POST to `{manager path}/{id}/retry`; on a non-2xx response, `cancel` yields
the pipeline-cancel error kind and `retry` the pipeline-retry error kind. -/
theorem cancel_retry_request_and_error (managerPath id : String) (kwargs a : Attrs)
    (status : Nat) :
    ProjectPipeline.cancelRequest managerPath id kwargs =
      { method := Method.POST, path := managerPath ++ "/" ++ id ++ "/cancel",
        params := [] } ∧
    ProjectPipeline.retryRequest managerPath id kwargs =
      { method := Method.POST, path := managerPath ++ "/" ++ id ++ "/retry",
        params := [] } ∧
    (ProjectPipeline.cancelRun a (HttpResponse.failure status)).1 =
      Except.error GitlabError.pipelineCancel ∧
    (ProjectPipeline.retryRun a (HttpResponse.failure status)).1 =
      Except.error GitlabError.pipelineRetry :=
  ⟨rfl, rfl, rfl, rfl⟩

/-- C6: after `cancel` or `retry`, whatever the server response, the
pipeline object's local attribute bag is exactly what it was before the
call. -/
theorem cancel_retry_preserve_attrs (a : Attrs) (resp : HttpResponse) :
    (ProjectPipeline.cancelRun a resp).2 = a ∧
    (ProjectPipeline.retryRun a resp).2 = a := by
  cases resp <;> exact ⟨rfl, rfl⟩

/-- C7: on a successful POST, `take_ownership` and `play` overwrite the
schedule object's local attributes with the response payload, and `play`
additionally returns that raw payload. -/
theorem take_ownership_play_overwrite_attrs (a payload : Attrs) :
    ProjectPipelineSchedule.take_ownershipRun a (HttpResponse.success payload) =
      (Except.ok (), payload) ∧
    ProjectPipelineSchedule.playRun a (HttpResponse.success payload) =
      (Except.ok payload, payload) :=
  ⟨rfl, rfl⟩

/-- C8: pipeline variables and schedule variables declare `key` as their
identifier attribute, and deleting or saving (updating) a schedule variable
addresses the resource with the key value as the path segment. -/
theorem variables_identified_by_key (project_id schedule_id : Nat) (a kwargs : Attrs)
    (k : String) (req : HttpRequest) (h : a.lookup "key" = some k)
    (hs : ProjectPipelineScheduleVariable.saveRequest project_id schedule_id a kwargs =
      some (Except.ok req)) :
    ProjectPipelineVariable.id_attr = "key" ∧
    ProjectPipelineScheduleVariable.id_attr = "key" ∧
    ProjectPipelineScheduleVariable.deleteRequest project_id schedule_id a kwargs =
      some
        { method := Method.DELETE,
          path := ProjectPipelineScheduleVariableManager.path project_id schedule_id
            ++ "/" ++ k,
          params := kwargs } ∧
    req.method = Method.PUT ∧
    req.path = ProjectPipelineScheduleVariableManager.path project_id schedule_id
      ++ "/" ++ k := by
  refine ⟨rfl, rfl, ?_, ?_⟩
  · simp [ProjectPipelineScheduleVariable.deleteRequest, RESTObject.get_id,
      ProjectPipelineScheduleVariable.id_attr, h, ObjectDeleteMixin.delete]
  · unfold ProjectPipelineScheduleVariable.saveRequest RESTObject.get_id
      ProjectPipelineScheduleVariable.id_attr at hs
    rw [h] at hs
    unfold ProjectPipelineScheduleVariableManager.update UpdateMixin.update at hs
    cases h' : RequiredOptional.missing
        ProjectPipelineScheduleVariableManager.update_attrs a with
    | nil => rw [h'] at hs; simp at hs; cases hs; exact ⟨rfl, rfl⟩
    | cons x xs => rw [h'] at hs; simp at hs

/-- Witness for C8 at the concrete attribute bag
`{key: MYVAR, value: v1}` for project 1, schedule 2. -/
theorem variables_identified_by_key_witness :
    (List.lookup "key" ([("key", "MYVAR"), ("value", "v1")] : Attrs) = some "MYVAR") ∧
    ProjectPipelineScheduleVariable.saveRequest 1 2 [("key", "MYVAR"), ("value", "v1")] [] =
      some (Except.ok
        { method := Method.PUT,
          path := "/projects/1/pipeline_schedules/2/variables/MYVAR",
          params := [("key", "MYVAR"), ("value", "v1")] }) ∧
    (ProjectPipelineVariable.id_attr = "key" ∧
     ProjectPipelineScheduleVariable.id_attr = "key" ∧
     ProjectPipelineScheduleVariable.deleteRequest 1 2
        [("key", "MYVAR"), ("value", "v1")] [] =
       some
         { method := Method.DELETE,
           path := ProjectPipelineScheduleVariableManager.path 1 2 ++ "/" ++ "MYVAR",
           params := [] } ∧
     Method.PUT = Method.PUT ∧
     "/projects/1/pipeline_schedules/2/variables/MYVAR" =
       ProjectPipelineScheduleVariableManager.path 1 2 ++ "/" ++ "MYVAR") :=
  ⟨rfl, rfl, variables_identified_by_key 1 2 [("key", "MYVAR"), ("value", "v1")] []
    "MYVAR"
    { method := Method.PUT, path := "/projects/1/pipeline_schedules/2/variables/MYVAR",
      params := [("key", "MYVAR"), ("value", "v1")] }
    rfl rfl⟩

/-- C9: the schedule manager's update attribute set has no required fields —
an update supplying zero fields passes validation and issues the PUT — while
create requires description, ref and cron (so a create with zero fields
fails locally listing exactly those three). -/
theorem schedule_update_no_required_fields (project_id : Nat) (id : String)
    (kwargs : Attrs) :
    ProjectPipelineScheduleManager.update_attrs.required = [] ∧
    ProjectPipelineScheduleManager.update project_id id [] kwargs =
      Except.ok
        { method := Method.PUT,
          path := ProjectPipelineScheduleManager.path project_id ++ "/" ++ id,
          params := kwargs } ∧
    ProjectPipelineScheduleManager.create_attrs.required =
      ["description", "ref", "cron"] ∧
    ProjectPipelineScheduleManager.create project_id [] kwargs =
      Except.error (LocalError.missingAttributes ["description", "ref", "cron"]) :=
  ⟨rfl, rfl, rfl, rfl⟩

/-- C10: the pipeline manager composes no update capability and the pipeline
object no save capability, and no pipeline operation of this module ever
issues a PUT or PATCH request. -/
theorem pipeline_never_updated (project_id : Nat) (op : PipelineOp) (req : HttpRequest)
    (h : PipelineOp.request project_id op = some req) :
    Capability.update ∉ ProjectPipelineManager.capabilities ∧
    Capability.save ∉ ProjectPipeline.capabilities ∧
    req.method ≠ Method.PUT ∧ req.method ≠ Method.PATCH := by
  refine ⟨by decide, by decide, ?_⟩
  cases op with
  | createOp data kwargs =>
      simp only [PipelineOp.request] at h
      cases hc : ProjectPipelineManager.create project_id data kwargs with
      | error e => rw [hc] at h; cases h
      | ok r =>
          rw [hc] at h
          simp only [Except.toOption] at h
          cases h
          unfold ProjectPipelineManager.create CreateMixin.create at hc
          cases h' : RequiredOptional.missing ProjectPipelineManager.create_attrs data with
          | nil =>
              rw [h'] at hc
              cases hc
              exact ⟨(fun hcon => nomatch hcon), (fun hcon => nomatch hcon)⟩
          | cons x xs => rw [h'] at hc; cases hc
  | listOp filters =>
      simp only [PipelineOp.request] at h
      cases h
      exact ⟨(fun hcon => nomatch hcon), (fun hcon => nomatch hcon)⟩
  | getOp id =>
      simp only [PipelineOp.request] at h
      cases h
      exact ⟨(fun hcon => nomatch hcon), (fun hcon => nomatch hcon)⟩
  | deleteOp id =>
      simp only [PipelineOp.request] at h
      cases h
      exact ⟨(fun hcon => nomatch hcon), (fun hcon => nomatch hcon)⟩
  | refreshOp id =>
      simp only [PipelineOp.request] at h
      cases h
      exact ⟨(fun hcon => nomatch hcon), (fun hcon => nomatch hcon)⟩
  | cancelOp id kwargs =>
      simp only [PipelineOp.request] at h
      cases h
      exact ⟨(fun hcon => nomatch hcon), (fun hcon => nomatch hcon)⟩
  | retryOp id kwargs =>
      simp only [PipelineOp.request] at h
      cases h
      exact ⟨(fun hcon => nomatch hcon), (fun hcon => nomatch hcon)⟩

/-- Witness for C10 at the concrete operation `cancel` on pipeline 5 of
project 1, whose issued request is a POST. -/
theorem pipeline_never_updated_witness :
    PipelineOp.request 1 (PipelineOp.cancelOp "5" []) =
      some
        { method := Method.POST, path := "/projects/1/pipelines/5/cancel",
          params := [] } ∧
    (Capability.update ∉ ProjectPipelineManager.capabilities ∧
     Capability.save ∉ ProjectPipeline.capabilities ∧
     Method.POST ≠ Method.PUT ∧ Method.POST ≠ Method.PATCH) :=
  ⟨rfl, pipeline_never_updated 1 (PipelineOp.cancelOp "5" [])
    { method := Method.POST, path := "/projects/1/pipelines/5/cancel", params := [] }
    rfl⟩

end Pipelines
